import Mathlib

/-!
Shallow embedding of the handle/pool allocator and the plugin-resolution
code of meshi-rs (meshi-cpp/src/api/meshi/bits/util/handle.hpp,
meshi-cpp/src/api/meshi/backend.hpp, capi/meshi-rs/meshi.h), together with
theorems settling the specification claims about them.

Modelling conventions:
* uint16_t / uint32_t / size_t values are Nat; a cast that can truncate is
  written with an explicit % 65536.
* std::vector is a List in vector order (list head = vector front,
  push_back appends at the end, back reads the last element).
* a read of vector::operator[] past the size is undefined behaviour in the
  C++; Pool.get_ref makes that outcome observable as GetResult.oob.
-/

namespace Meshi

/-- uint16_t max, the sentinel value used by Handle. -/
def UINT16_MAX : Nat := 65535

/-- handle.hpp: Handle is a (slot, generation) pair of uint16_t.  The type
parameter mirrors the C++ template tag and carries no data. -/
structure Handle (T : Type) where
  slot : Nat
  generation : Nat
deriving DecidableEq

/-- handle.hpp: a default-constructed Handle has both fields equal to the
UINT16_MAX sentinel. -/
def Handle.defaultHandle (T : Type) : Handle T := ⟨UINT16_MAX, UINT16_MAX⟩

/-- handle.hpp: Handle::valid() holds when neither field is the sentinel. -/
def Handle.valid {T : Type} (h : Handle T) : Bool :=
  h.slot != UINT16_MAX && h.generation != UINT16_MAX

/-- handle.hpp: ItemList: the backing buffer (as the list of its capacity
elements) plus the flag recording whether the buffer was imported from a
foreign allocator. -/
structure ItemList (T : Type) where
  items : List T
  imported : Bool
deriving DecidableEq

/-- handle.hpp: ItemList(size_t len): an owned buffer of len
default-initialized slots. -/
def ItemList.create (T : Type) [Inhabited T] (len : Nat) : ItemList T :=
  ⟨List.replicate len default, false⟩

/-- handle.hpp: ItemList(T* ptr, size_t len): a borrowed buffer; the foreign
memory's current contents are the list. -/
def ItemList.fromForeign {T : Type} (contents : List T) : ItemList T :=
  ⟨contents, true⟩

/-- handle.hpp: ItemList::size(). -/
def ItemList.size {T : Type} (l : ItemList T) : Nat := l.items.length

/-- handle.hpp: ItemList::expand(size_t amt): when the buffer is owned,
allocate capacity+amt default-initialized slots and memcpy the old contents
over, so the new buffer is the old contents followed by amt default slots;
when the buffer is borrowed, do nothing. -/
def ItemList.expand {T : Type} [Inhabited T] (l : ItemList T) (amt : Nat) :
    ItemList T :=
  if !l.imported then
    { l with items := l.items ++ List.replicate amt default }
  else l

/-- handle.hpp: the Pool state: the ItemList, the free stack (the
std::vector named empty, back = top of stack) and the generation array. -/
structure Pool (T : Type) where
  items : ItemList T
  empty : List Nat
  generation : List Nat
deriving DecidableEq

/-- handle.hpp: Pool(size_t initial_size): owned items, generation all zero,
free stack 0,1,...,initial_size-1 pushed in increasing order, so the back of
the stack is initial_size-1.  Call sites default initial_size to 1024. -/
def Pool.create (T : Type) [Inhabited T] (initial_size : Nat) : Pool T :=
  { items := ItemList.create T initial_size
    empty := List.range initial_size
    generation := List.replicate initial_size 0 }

/-- std::vector::resize(n, 0): truncate to n elements or extend with
zeros. -/
def vecResize (l : List Nat) (n : Nat) : List Nat :=
  if n ≤ l.length then l.take n
  else l ++ List.replicate (n - l.length) 0

/-- handle.hpp: Pool::expand(size_t amount): grow the ItemList, resize the
generation array to the new item count with zero fill, and push the indices
old_size..new_size-1 onto the free stack. -/
def Pool.expand {T : Type} [Inhabited T] (p : Pool T) (amount : Nat) :
    Pool T :=
  let old_size := p.items.size
  let items' := p.items.expand amount
  { items := items'
    generation := vecResize p.generation items'.size
    empty := p.empty ++ List.range' old_size (items'.size - old_size) }

/-- handle.hpp: Pool::insert(const T&): expand by the fixed 1024 batch when
the free stack is empty, pop the back of the free stack, store the item in
that slot and return Handle{(uint16_t)slot, generation[slot]}.  The none
branch of getLast? is unreachable from Pool states the code builds (expand
with a positive amount leaves the stack nonempty); calling back() on an
empty vector would be undefined in C++, modelled here as returning the
sentinel handle with the pool unchanged. -/
def Pool.insert {T : Type} [Inhabited T] (p : Pool T) (item : T) :
    Handle T × Pool T :=
  let p1 := if p.empty.isEmpty then p.expand 1024 else p
  match p1.empty.getLast? with
  | some empty_slot =>
      (⟨empty_slot % 65536, p1.generation.getD empty_slot 0⟩,
       { p1 with
           empty := p1.empty.dropLast
           items := { p1.items with
                        items := p1.items.items.set empty_slot item } })
  | none => (⟨UINT16_MAX, UINT16_MAX⟩, p1)

/-- Result of Pool::get_ref: found (a dereferenceable slot value), miss
(std::nullopt), or oob (an out-of-bounds vector read, which is undefined
behaviour in the C++). -/
inductive GetResult (T : Type) where
  | found : T → GetResult T
  | miss : GetResult T
  | oob : GetResult T
deriving DecidableEq

/-- handle.hpp: Pool::get_ref(handle): when handle.valid() holds and
generation[handle.slot] equals handle.generation, a pointer to
items[handle.slot]; otherwise nullopt.  valid() is checked first and
short-circuits, so a sentinel handle reads no array entry; a non-sentinel
slot past the generation array's size is an out-of-bounds read (oob). -/
def Pool.get_ref {T : Type} (p : Pool T) (handle : Handle T) : GetResult T :=
  if handle.valid then
    match p.generation[handle.slot]? with
    | some g =>
        if g = handle.generation then
          match p.items.items[handle.slot]? with
          | some v => .found v
          | none => .oob
        else .miss
    | none => .oob
  else .miss

/-- handle.hpp: Pool::release(handle): push handle.slot onto the free stack;
nothing else is modified (in particular the generation array is
untouched). -/
def Pool.release {T : Type} (p : Pool T) (handle : Handle T) : Pool T :=
  { p with empty := p.empty ++ [handle.slot] }

/-- handle.hpp: Pool::clear(): the free stack becomes 0..size-1 and every
generation entry is set to 0; the stored items are untouched. -/
def Pool.clear {T : Type} (p : Pool T) : Pool T :=
  { p with
      empty := List.range p.items.size
      generation := List.replicate p.generation.length 0 }

/-- Characterization of a successful get_ref: the handle is valid, the
stored generation for its slot equals its generation, and the slot holds the
value. -/
theorem get_ref_found_iff {T : Type} (p : Pool T) (h : Handle T) (x : T) :
    p.get_ref h = .found x ↔
      h.valid = true ∧ p.generation[h.slot]? = some h.generation ∧
        p.items.items[h.slot]? = some x := by
  unfold Pool.get_ref
  cases hv : h.valid
  · simp [hv]
  · cases hg : p.generation[h.slot]? with
    | none => simp [hg]
    | some g =>
      by_cases hge : g = h.generation
      · cases hi : p.items.items[h.slot]? with
        | none => simp [hg, hge, hi]
        | some w => simp [hg, hge, hi, eq_comm]
      · simp [hg, hge]

/-- C1: counter-evidence trace.  In a Pool of capacity 1, inserting 10
yields handle {0,0}; after releasing it, inserting 20 yields the very same
handle {0,0}, and get_ref with the original (supposedly stale) handle
succeeds and returns the new value 20 instead of failing as a stale miss,
because release never increments the generation. -/
theorem C1_stale_handle_not_detected :
    ((Pool.create Nat 1).insert 10).1 = ⟨0, 0⟩ ∧
    (((((Pool.create Nat 1).insert 10).2).release ⟨0, 0⟩).insert 20).1
      = ⟨0, 0⟩ ∧
    (((((Pool.create Nat 1).insert 10).2).release ⟨0, 0⟩).insert
        20).2.get_ref ⟨0, 0⟩ = .found 20 := by
  decide

/-- C2: counter-evidence trace.  Pool of capacity 1: insert 5 yields {0,0};
releasing {0,0} pushes slot 0 onto the free stack but leaves generation[0]
at 0 rather than incrementing it to 1. -/
theorem C2_release_does_not_increment_generation :
    ((Pool.create Nat 1).insert 5).1 = ⟨0, 0⟩ ∧
    ((((Pool.create Nat 1).insert 5).2).release ⟨0, 0⟩).empty = [0] ∧
    ((((Pool.create Nat 1).insert 5).2).release ⟨0, 0⟩).generation = [0] := by
  decide

/-- C3: counter-evidence.  On a Pool of capacity 4, the handle {5,0} passes
valid() (neither field is the sentinel) but its slot is out of range, so
get_ref reads generation[5] past the end of the vector: an out-of-bounds
access (undefined behaviour) rather than the not-found signal the claim
requires. -/
theorem C3_out_of_range_get_is_oob :
    (⟨5, 0⟩ : Handle Nat).valid = true ∧
    (Pool.create Nat 4).get_ref ⟨5, 0⟩ = .oob := by
  decide

/-- C4: counter-evidence trace.  Pool of capacity 1: after insert 5 the free
stack is empty; releasing {0,0} once makes it [0]; releasing {0,0} again is
not rejected and makes it [0,0], so slot 0 occupies two free-stack
entries. -/
theorem C4_double_release_not_rejected :
    ((((Pool.create Nat 1).insert 5).2).release ⟨0, 0⟩).empty = [0] ∧
    (((((Pool.create Nat 1).insert 5).2).release ⟨0, 0⟩).release
        ⟨0, 0⟩).empty = [0, 0] := by
  decide

/-- C5: counterexample.  Pool of capacity 1: insert 7 yields handle {0,0};
after clear(), get_ref {0,0} still succeeds and returns 7, so clear does not
invalidate every previously issued handle. -/
theorem C5_clear_keeps_generation_zero_handles :
    ((Pool.create Nat 1).insert 7).1 = ⟨0, 0⟩ ∧
    ((((Pool.create Nat 1).insert 7).2).clear).get_ref ⟨0, 0⟩ = .found 7 := by
  decide

/-- C5 (amended): clear() resets the free stack to all slots and every
generation entry to 0 and leaves the stored items untouched; consequently a
previously issued in-range handle whose generation is 0 still succeeds in
get_ref afterwards, so clear invalidates only handles whose generation is
nonzero. -/
theorem C5_clear_resets_but_spares_generation_zero
    {T : Type} (p : Pool T) (h : Handle T) (x : T)
    (hv : h.valid = true) (hg : h.generation = 0)
    (hlt : h.slot < p.generation.length)
    (hx : p.items.items[h.slot]? = some x) :
    (p.clear).empty = List.range p.items.size ∧
    (p.clear).generation = List.replicate p.generation.length 0 ∧
    (p.clear).get_ref h = .found x := by
  refine ⟨rfl, rfl, ?_⟩
  rw [get_ref_found_iff]
  refine ⟨hv, ?_, hx⟩
  show (List.replicate p.generation.length 0)[h.slot]? = some h.generation
  rw [hg, List.getElem?_replicate, if_pos hlt]

/-- C5 witness: the amended clear theorem at the capacity-1 pool holding 7
in slot 0 and the handle {0,0}. -/
theorem C5_clear_resets_witness :
    ((((Pool.create Nat 1).insert 7).2).clear).empty
        = List.range (((Pool.create Nat 1).insert 7).2).items.size ∧
    ((((Pool.create Nat 1).insert 7).2).clear).generation
        = List.replicate
            (((Pool.create Nat 1).insert 7).2).generation.length 0 ∧
    ((((Pool.create Nat 1).insert 7).2).clear).get_ref ⟨0, 0⟩ = .found 7 :=
  C5_clear_resets_but_spares_generation_zero _ ⟨0, 0⟩ 7 (by decide) rfl
    (by decide) (by decide)

/-- meshi.h: the fields of MeshiPluginApi that EngineBackend's constructor
uses: the abi_version tag and the make_engine / get_graphics_system /
get_physics_system function pointers, modelled as functions on abstract
pointer values.  The real table holds many more pointers, none of them read
during construction. -/
structure MeshiPluginApi where
  abi_version : Nat
  make_engine : Nat → Nat
  get_graphics_system : Nat → Nat
  get_physics_system : Nat → Nat

/-- meshi.h: the MESHI_PLUGIN_GET_API_SYMBOL entry-symbol name. -/
def MESHI_PLUGIN_GET_API_SYMBOL : String := "meshi_plugin_get_api"

/-- meshi.h: MESHI_PLUGIN_LOAD_API(loader_fn): when the loader is null the
result is NULL, otherwise the loader is asked for the entry symbol and the
returned meshi_plugin_get_api function is invoked, yielding the table.  The
loader is modelled as the composite lookup-then-call: given the symbol name
it produces the table that invoking the looked-up function returns, or none
when the symbol is absent.  No field of the table is inspected. -/
def MESHI_PLUGIN_LOAD_API
    (loader_fn : Option (String → Option MeshiPluginApi)) :
    Option MeshiPluginApi :=
  match loader_fn with
  | some f => f MESHI_PLUGIN_GET_API_SYMBOL
  | none => none

/-- backend.hpp: EngineBackend::resolve_api(): load the module, wrap the
symbol lookup into a loader and return MESHI_PLUGIN_LOAD_API of it.  No
abi_version comparison occurs anywhere. -/
def resolve_api (loader_fn : Option (String → Option MeshiPluginApi)) :
    Option MeshiPluginApi :=
  MESHI_PLUGIN_LOAD_API loader_fn

/-- Dispatch-table function pointers that EngineBackend's constructor
invokes. -/
inductive ApiCall where
  | make_engine
  | get_physics_system
  | get_graphics_system
deriving DecidableEq

/-- backend.hpp: the EngineBackend state right after construction: the
resolved table, the engine pointer, and the ordered trace of dispatch-table
pointers the constructor invoked. -/
structure EngineBackendState where
  api : MeshiPluginApi
  engine : Nat
  calls : List ApiCall

/-- backend.hpp: EngineBackend(info): resolve_api, assert the table is
non-null (none models the assert firing), then immediately invoke
make_engine, get_physics_system and get_graphics_system through the
table. -/
def EngineBackend.construct
    (loader_fn : Option (String → Option MeshiPluginApi)) (info : Nat) :
    Option EngineBackendState :=
  match resolve_api loader_fn with
  | none => none
  | some api =>
      let engine := api.make_engine info
      let _raw_phys := api.get_physics_system engine
      let _raw_gfx := api.get_graphics_system engine
      some ⟨api, engine,
            [.make_engine, .get_physics_system, .get_graphics_system]⟩

/-- C6: counter-evidence.  A module whose dispatch table reports
abi_version 9999 resolves successfully: resolve_api returns the table
without comparing abi_version against anything (no AbiMismatch outcome
exists in the code), and EngineBackend's constructor then invokes the
make_engine, get_physics_system and get_graphics_system dispatch-table
pointers. -/
theorem C6_no_abi_version_check :
    resolve_api (some fun _ => some (MeshiPluginApi.mk 9999 (fun _ => 1) id id))
        = some (MeshiPluginApi.mk 9999 (fun _ => 1) id id) ∧
    (EngineBackend.construct
          (some fun _ => some (MeshiPluginApi.mk 9999 (fun _ => 1) id id))
          0).map EngineBackendState.calls
      = some [ApiCall.make_engine, ApiCall.get_physics_system,
              ApiCall.get_graphics_system] :=
  ⟨rfl, rfl⟩

/-- std::vector::resize to the current length plus amt appends amt
zeros. -/
theorem vecResize_add (l : List Nat) (amt : Nat) :
    vecResize l (l.length + amt) = l ++ List.replicate amt 0 := by
  unfold vecResize
  rcases Nat.eq_zero_or_pos amt with h | h
  · subst h
    simp
  · rw [if_neg (by omega), Nat.add_sub_cancel_left]

/-- handle.hpp: Pool::expand on an owned store with the generation array in
sync appends amt default slots, amt zero generations, and the fresh indices
old_size..old_size+amt-1 to the free stack. -/
theorem Pool.expand_eq {T : Type} [Inhabited T] (p : Pool T) (amt : Nat)
    (himp : p.items.imported = false)
    (hgen : p.generation.length = p.items.size) :
    p.expand amt =
      { items := ⟨p.items.items ++ List.replicate amt default, false⟩
        empty := p.empty ++ List.range' p.items.size amt
        generation := p.generation ++ List.replicate amt 0 } := by
  obtain ⟨⟨its, imp⟩, em, gen⟩ := p
  have himp' : imp = false := himp
  subst himp'
  have hgen' : gen.length = its.length := hgen
  simp only [Pool.expand, ItemList.expand, ItemList.size, Bool.not_false,
    if_true, List.length_append, List.length_replicate, ← hgen',
    Nat.add_sub_cancel_left, vecResize_add]

/-- handle.hpp: Pool::insert on an owned pool whose free stack is empty and
whose generation array is in sync: exactly one 1024-slot expansion happens,
the popped back of the refilled free stack is old_size+1023, the value is
written into that slot, and the handle carries the (unincremented, zero)
generation of the fresh slot. -/
theorem Pool.insert_empty_eq {T : Type} [Inhabited T] (p : Pool T) (v : T)
    (he : p.empty = [])
    (himp : p.items.imported = false)
    (hgen : p.generation.length = p.items.size) :
    p.insert v =
      (⟨(p.items.size + 1023) % 65536, 0⟩,
       { items := ⟨(p.items.items ++ List.replicate 1024 default).set
                     (p.items.size + 1023) v, false⟩
         empty := List.range' p.items.size 1023
         generation := p.generation ++ List.replicate 1024 0 }) := by
  have hE := Pool.expand_eq p 1024 himp hgen
  have hr : List.range' p.items.size 1024
      = List.range' p.items.size 1023 ++ [p.items.size + 1023] := by
    simpa using @List.range'_concat 1 p.items.size 1023
  have hle : p.generation.length ≤ p.items.size + 1023 := by
    rw [hgen]; omega
  simp only [Pool.insert, he, hE, List.isEmpty_nil, if_true,
    List.nil_append, hr, List.getLast?_concat, List.dropLast_concat,
    List.getD_eq_getElem?_getD, List.getElem?_append_right hle, hgen,
    Nat.add_sub_cancel_left, List.getElem?_replicate]
  rfl

/-- C7: an insert on a pool whose free stack is empty grows the slot store
by exactly the fixed 1024 batch, pops one of the freshly added free indices
(the highest, old_size+1023), writes the value into that slot (a get_ref
with the returned handle reads it back whenever the popped index survives
the uint16_t cast), and returns Handle{(uint16_t)slot, generation[slot]}
with the generation array merely extended by zeros, never incremented; the
stored object at every pre-growth index i is still at index i afterwards,
and every get_ref that succeeded before the growth still succeeds with the
same value. -/
theorem C7_insert_grows_once_and_preserves
    {T : Type} [Inhabited T] (p : Pool T) (v : T)
    (h0 : Handle T) (x : T) (i : Nat)
    (he : p.empty = [])
    (himp : p.items.imported = false)
    (hgen : p.generation.length = p.items.size)
    (hfound : p.get_ref h0 = .found x)
    (hi : i < p.items.size) :
    (p.insert v).2.items.size = p.items.size + 1024 ∧
    (p.insert v).1 = ⟨(p.items.size + 1023) % 65536, 0⟩ ∧
    (p.insert v).2.generation = p.generation ++ List.replicate 1024 0 ∧
    (p.insert v).2.empty = List.range' p.items.size 1023 ∧
    (p.insert v).2.items.items[p.items.size + 1023]? = some v ∧
    (p.items.size + 1023 < UINT16_MAX →
      (p.insert v).2.get_ref (p.insert v).1 = .found v) ∧
    (p.insert v).2.items.items[i]? = p.items.items[i]? ∧
    (p.insert v).2.get_ref h0 = .found x := by
  have hins := Pool.insert_empty_eq p v he himp hgen
  obtain ⟨hv0, hg0, hx0⟩ := (get_ref_found_iff p h0 x).1 hfound
  have hslot_gen : h0.slot < p.generation.length :=
    (List.getElem?_eq_some.1 hg0).1
  have hslot_items : h0.slot < p.items.items.length :=
    (List.getElem?_eq_some.1 hx0).1
  have hi' : i < p.items.items.length := hi
  have hlen : p.items.items.length = p.items.size := rfl
  have hle : p.generation.length ≤ p.items.size + 1023 := by
    rw [hgen]; omega
  have hitems : ∀ j, j < p.items.items.length →
      ((p.items.items ++ List.replicate 1024 default).set
          (p.items.size + 1023) v)[j]? = p.items.items[j]? := by
    intro j hj
    rw [List.getElem?_set_ne (by
      show p.items.size + 1023 ≠ j
      omega)]
    exact List.getElem?_append_left hj
  have hstored : ((p.items.items ++ List.replicate 1024 default).set
      (p.items.size + 1023) v)[p.items.size + 1023]? = some v := by
    rw [List.getElem?_set, if_pos rfl,
      if_pos (by rw [List.length_append, List.length_replicate]; omega)]
  refine ⟨?_, ?_, ?_, ?_, ?_, ?_, ?_, ?_⟩
  · rw [hins]
    show ((p.items.items ++ List.replicate 1024 default).set
        (p.items.size + 1023) v).length = p.items.size + 1024
    rw [List.length_set, List.length_append, List.length_replicate]
    rfl
  · rw [hins]
  · rw [hins]
  · rw [hins]
  · rw [hins]
    exact hstored
  · intro hb
    unfold UINT16_MAX at hb
    have hmod : (p.items.size + 1023) % 65536 = p.items.size + 1023 :=
      Nat.mod_eq_of_lt (by omega)
    rw [hins, get_ref_found_iff]
    refine ⟨?_, ?_, ?_⟩
    · show ((⟨(p.items.size + 1023) % 65536, 0⟩ : Handle T).valid) = true
      simp [Handle.valid, hmod, UINT16_MAX]
      omega
    · show (p.generation ++ List.replicate 1024 0)[(p.items.size + 1023)
          % 65536]? = some (0 : Nat)
      rw [hmod, List.getElem?_append_right hle, hgen,
        Nat.add_sub_cancel_left, List.getElem?_replicate,
        if_pos (by omega)]
    · show ((p.items.items ++ List.replicate 1024 default).set
          (p.items.size + 1023) v)[(p.items.size + 1023) % 65536]? = some v
      rw [hmod]
      exact hstored
  · rw [hins]
    exact hitems i hi'
  · rw [hins]
    rw [get_ref_found_iff]
    refine ⟨hv0, ?_, ?_⟩
    · show (p.generation ++ List.replicate 1024 0)[h0.slot]?
        = some h0.generation
      rw [List.getElem?_append_left hslot_gen]
      exact hg0
    · show ((p.items.items ++ List.replicate 1024 default).set
          (p.items.size + 1023) v)[h0.slot]? = some x
      rw [hitems h0.slot hslot_items]
      exact hx0

/-- C7 witness: the growth theorem at the capacity-1 pool holding 7 in
slot 0 (its free stack is empty after the one insert), inserting 5, with
the pre-growth handle {0,0} and index 0. -/
theorem C7_insert_grows_once_witness :
    ((((Pool.create Nat 1).insert 7).2).insert 5).2.items.size
        = (((Pool.create Nat 1).insert 7).2).items.size + 1024 ∧
    ((((Pool.create Nat 1).insert 7).2).insert 5).1
        = ⟨((((Pool.create Nat 1).insert 7).2).items.size + 1023) % 65536,
           0⟩ ∧
    ((((Pool.create Nat 1).insert 7).2).insert 5).2.generation
        = (((Pool.create Nat 1).insert 7).2).generation
            ++ List.replicate 1024 0 ∧
    ((((Pool.create Nat 1).insert 7).2).insert 5).2.empty
        = List.range' (((Pool.create Nat 1).insert 7).2).items.size 1023 ∧
    ((((Pool.create Nat 1).insert 7).2).insert
        5).2.items.items[(((Pool.create Nat 1).insert 7).2).items.size
          + 1023]? = some 5 ∧
    ((((Pool.create Nat 1).insert 7).2).items.size + 1023 < UINT16_MAX →
      ((((Pool.create Nat 1).insert 7).2).insert 5).2.get_ref
          ((((Pool.create Nat 1).insert 7).2).insert 5).1 = .found 5) ∧
    ((((Pool.create Nat 1).insert 7).2).insert 5).2.items.items[0]?
        = (((Pool.create Nat 1).insert 7).2).items.items[0]? ∧
    ((((Pool.create Nat 1).insert 7).2).insert 5).2.get_ref ⟨0, 0⟩
        = .found 7 :=
  C7_insert_grows_once_and_preserves (((Pool.create Nat 1).insert 7).2) 5
    ⟨0, 0⟩ 7 0 (by decide) (by decide) (by decide) (by decide) (by decide)

/-- C8: counterexample.  The first insert on a fresh capacity-2 pool returns
handle {1,0}, not {0,0} as the claim states: the free stack holds [0, 1] and
insert pops from the back. -/
theorem C8_first_insert_pops_back :
    ((Pool.create Nat 2).insert 10).1 = ⟨1, 0⟩ ∧
    ¬ ((Pool.create Nat 2).insert 10).1 = ⟨0, 0⟩ := by
  decide

/-- C8 (amended): on a fresh capacity-2 pool, insert(A) yields {1,0} (the
free stack [0,1] is popped from the back), insert(B) yields {0,0},
release({0,0}) re-pushes slot 0 and leaves generation[0] at 0 (release
never increments), insert(C) yields {0,0} again, and afterwards get({0,0})
returns C, get({0,1}) misses, and get({1,0}) returns A. -/
theorem C8_capacity_two_scenario :
    ((Pool.create Nat 2).insert 10).1 = ⟨1, 0⟩ ∧
    (((Pool.create Nat 2).insert 10).2.insert 20).1 = ⟨0, 0⟩ ∧
    ((((Pool.create Nat 2).insert 10).2.insert 20).2.release ⟨0, 0⟩).empty
      = [0] ∧
    ((((Pool.create Nat 2).insert 10).2.insert 20).2.release
        ⟨0, 0⟩).generation = [0, 0] ∧
    (((((Pool.create Nat 2).insert 10).2.insert 20).2.release
        ⟨0, 0⟩).insert 30).1 = ⟨0, 0⟩ ∧
    (((((Pool.create Nat 2).insert 10).2.insert 20).2.release
        ⟨0, 0⟩).insert 30).2.get_ref ⟨0, 0⟩ = .found 30 ∧
    (((((Pool.create Nat 2).insert 10).2.insert 20).2.release
        ⟨0, 0⟩).insert 30).2.get_ref ⟨0, 1⟩ = .miss ∧
    (((((Pool.create Nat 2).insert 10).2.insert 20).2.release
        ⟨0, 0⟩).insert 30).2.get_ref ⟨1, 0⟩ = .found 10 := by
  decide

/-- C9: for a borrowed (imported) ItemList, expand is a silent no-op: the
store, its capacity and every stored element are unchanged.  (The claim's
other half, that destruction must not free the foreign buffer, fails in the
code: the imported pointer sits in a std::unique_ptr with the default
deleter and ItemList declares no destructor, so the buffer is freed.) -/
theorem C9_borrowed_expand_noop {T : Type} [Inhabited T]
    (l : ItemList T) (amt : Nat) (h : l.imported = true) :
    l.expand amt = l := by
  simp [ItemList.expand, h]

/-- C9 witness: expanding a borrowed two-element store by 1024 changes
nothing. -/
theorem C9_borrowed_expand_noop_witness :
    (ItemList.fromForeign [1, 2] : ItemList Nat).expand 1024
      = ItemList.fromForeign [1, 2] :=
  C9_borrowed_expand_noop _ 1024 rfl

/-- C10: get_ref with a sentinel handle (slot or generation equal to
UINT16_MAX, in particular a default-constructed Handle, whose valid() is
false) misses for every pool state whatsoever: the result is independent of
the stored items and generations, reflecting that valid() short-circuits
before any array entry is read; and the pool is left unchanged since
get_ref mutates nothing (it is a pure function of the state here, mirroring
that the C++ member only reads). -/
theorem C10_sentinel_handle_misses
    {T : Type} (p : Pool T) (h : Handle T)
    (hs : h.slot = UINT16_MAX ∨ h.generation = UINT16_MAX) :
    h.valid = false ∧ p.get_ref h = .miss := by
  have hv : h.valid = false := by
    unfold Handle.valid
    rcases hs with hs | hs <;> simp [hs]
  exact ⟨hv, by simp [Pool.get_ref, hv]⟩

/-- C10 witness: the sentinel-slot handle {65535, 3} misses on a concrete
capacity-2 pool. -/
theorem C10_sentinel_handle_misses_witness :
    (⟨UINT16_MAX, 3⟩ : Handle Nat).valid = false ∧
    (Pool.create Nat 2).get_ref ⟨UINT16_MAX, 3⟩ = .miss :=
  C10_sentinel_handle_misses (Pool.create Nat 2) ⟨UINT16_MAX, 3⟩ (Or.inl rfl)

end Meshi
